import Mathlib

/-!
Verification of the oc-mirror v2 workflow orchestrator
(`v2/pkg/cli/executor.go`) against its natural-language specification.

The Go code is shallowly embedded: each pure decision procedure becomes a
Lean function, and the effectful run routines become functions producing an
explicit event trace together with their returned error, so that ordering
and cleanup claims can be stated as facts about the trace.
-/

/-- Character-list analogue of Go's prefix test used by
`strings.HasPrefix` / `strings.TrimPrefix`. -/
def listIsPfxOf : List Char → List Char → Bool
  | [], _ => true
  | _ :: _, [] => false
  | a :: as, b :: bs => a == b && listIsPfxOf as bs

/-- Character-list substring containment, the semantics of Go's
`strings.Contains(s, sub)` (with the arguments as `listInfix sub s`). -/
def listInfix : List Char → List Char → Bool
  | sub, [] => sub.isEmpty
  | sub, c :: tail => listIsPfxOf sub (c :: tail) || listInfix sub tail

/-- Go `strings.Contains s sub`: `sub` occurs somewhere inside `s`. -/
def goContains (s sub : String) : Bool :=
  listInfix sub.data s.data

/-- Go `strings.TrimPrefix s pre`: drops `pre` from the front of `s` when it
is actually a leading segment, otherwise returns `s` unchanged. -/
def goTrimPfx (s pre : String) : String :=
  if listIsPfxOf pre.data s.data then String.mk (s.data.drop pre.data.length) else s

/-- `dockerProtocol` constant of executor.go line 42. -/
def dockerProtocol : String := "docker://"

/-- `fileProtocol` constant of executor.go line 45. -/
def fileProtocol : String := "file://"

/-- The five distinct rule-specific errors `ExecutorSchema.Validate`
(executor.go lines 183-201) can return, one per `fmt.Errorf` site. -/
inductive ValidationError where
  | configMissing
  | dockerNeedsFrom
  | fileForbidsFrom
  | fromNeedsFilePfx
  | unknownProtocol
deriving DecidableEq, Repr

/-- Embedding of `ExecutorSchema.Validate` (executor.go lines 183-201).
`configPath` is `o.Opts.Global.ConfigPath`, `fromFlag` is
`o.Opts.Global.From`, `dest` is `dest[0]`.  The receiver is passed by value
and never assigned to, so the Go method is a pure function of these three
strings; `none` models the `nil` return. -/
def validate (configPath fromFlag dest : String) : Option ValidationError :=
  if configPath.length == 0 then some ValidationError.configMissing
  else if goContains dest dockerProtocol && (fromFlag == "") then some ValidationError.dockerNeedsFrom
  else if goContains dest fileProtocol && (fromFlag != "") then some ValidationError.fileForbidsFrom
  else if (fromFlag.length != 0) && !(goContains fromFlag fileProtocol) then some ValidationError.fromNeedsFilePfx
  else if goContains dest fileProtocol || goContains dest dockerProtocol then none
  else some ValidationError.unknownProtocol

/-- The workflow modes of the `mirror` package (`mirror.MirrorToDisk`,
`mirror.DiskToMirror`, `mirror.Prepare`). -/
inductive Mode where
  | mirrorToDisk
  | diskToMirror
  | prepareMode
deriving DecidableEq, Repr

/-- Embedding of the mode/root resolution block of `ExecutorSchema.Complete`
(executor.go lines 331-342): the first branch handles a destination
containing `file://`, the second a destination containing `docker://`; the
final `else` only logs and leaves `o.Opts.Mode` unset, modelled as `none`. -/
def completeModeAndRoot (fromFlag dest : String) : Option (Mode × String) :=
  if goContains dest fileProtocol then
    some (Mode.mirrorToDisk, goTrimPfx dest fileProtocol)
  else if goContains dest dockerProtocol then
    some (Mode.diskToMirror, goTrimPfx fromFlag fileProtocol)
  else
    none

/-- The mode assignment of `ExecutorSchema.CompletePrepare`
(executor.go line 723): `o.Opts.Mode = mirror.Prepare`. -/
def completePrepareMode : Mode := Mode.prepareMode

/-- The fields of `v1alpha3.CopyImageSchema` that the executor reads:
a source reference, a destination reference, and origin metadata. -/
structure CopyImageSchema where
  source : String
  destination : String
  origin : String
deriving DecidableEq, Repr

/-- Embedding of `mergeImages` (executor.go lines 602-605):
`base = append(base, in...)`. -/
def mergeImages (base incoming : List CopyImageSchema) : List CopyImageSchema :=
  base ++ incoming

/-- Observable actions of the orchestrator's run routines, in the order they
happen in the Go source; used to state ordering and cleanup claims. -/
inductive Event where
  | startRegistry
  | unarchive
  | collectRelease
  | collectOp
  | collectAdditional
  | cleanup
  | batchWorker
  | sendNormalInterrupt
  | buildArchive
  | closeArchiver
  | closeUnarchiver
  | idmsGenerator
  | logMetrics
deriving DecidableEq, Repr

/-- Everything observable about one `CollectAll` call: the returned slice and
error, the sequence of actions performed (collector invocations and `cleanUp`
calls), the successive assignments to `o.Opts.ImageType`, the value of
`o.Opts.ImageType` in effect at each `mergeImages` call (in call order), and
its final value (it starts as the zero value `""`). -/
structure CollectResult where
  images : List CopyImageSchema
  err : Option String
  events : List Event
  imageTypeSets : List String
  tagAtMerge : List String
  imageTypeFinal : String
deriving DecidableEq, Repr

/-- Embedding of `ExecutorSchema.CollectAll` (executor.go lines 565-598).
The three collector calls are modelled by their results `rel`, `opr`, `add`;
the Go control flow is sequential: release collector, on error `cleanUp` and
return the empty slice with the error; else set `ImageType = "release"` and
merge; likewise operator with `"operator"`; the additional-images block
performs no `ImageType` assignment before its merge. -/
def collectAll (rel opr add : Except String (List CopyImageSchema)) : CollectResult :=
  match rel with
  | Except.error e =>
      { images := [], err := some e,
        events := [Event.collectRelease, Event.cleanup],
        imageTypeSets := [], tagAtMerge := [], imageTypeFinal := "" }
  | Except.ok rs =>
      match opr with
      | Except.error e =>
          { images := [], err := some e,
            events := [Event.collectRelease, Event.collectOp, Event.cleanup],
            imageTypeSets := ["release"], tagAtMerge := ["release"],
            imageTypeFinal := "release" }
      | Except.ok os =>
          match add with
          | Except.error e =>
              { images := [], err := some e,
                events := [Event.collectRelease, Event.collectOp,
                  Event.collectAdditional, Event.cleanup],
                imageTypeSets := ["release", "operator"],
                tagAtMerge := ["release", "operator"],
                imageTypeFinal := "operator" }
          | Except.ok as =>
              { images := mergeImages (mergeImages (mergeImages [] rs) os) as,
                err := none,
                events := [Event.collectRelease, Event.collectOp,
                  Event.collectAdditional],
                imageTypeSets := ["release", "operator"],
                tagAtMerge := ["release", "operator", "operator"],
                imageTypeFinal := "operator" }

/-- Embedding of `ExecutorSchema.RunMirrorToDisk` (executor.go lines
468-506) as a trace: start the registry, `CollectAll`, `Batch.Worker`
(result `bRes`), send the normal-shutdown sentinel on the interrupt channel,
`BuildArchive` (result `aRes`), log the timing metrics, and finally the
deferred `MirrorArchiver.Close` registered after a successful build. -/
def runMirrorToDisk (rel opr add : Except String (List CopyImageSchema))
    (bRes : Option String) (aRes : Except String String) :
    List Event × Option String :=
  let c := collectAll rel opr add
  match c.err with
  | some e => (Event.startRegistry :: c.events, some e)
  | none =>
    match bRes with
    | some e => (Event.startRegistry :: c.events ++ [Event.batchWorker], some e)
    | none =>
      match aRes with
      | Except.error e =>
          (Event.startRegistry :: c.events ++
            [Event.batchWorker, Event.sendNormalInterrupt, Event.buildArchive],
            some e)
      | Except.ok _ =>
          (Event.startRegistry :: c.events ++
            [Event.batchWorker, Event.sendNormalInterrupt, Event.buildArchive,
              Event.logMetrics, Event.closeArchiver],
            none)

/-- Embedding of `ExecutorSchema.RunDiskToMirror` (executor.go lines
508-549) as a trace: `Unarchive` (result `uRes`; on success its deferred
`Close` runs at every later exit), start the registry, `CollectAll`,
`Batch.Worker`, `IDMSGenerator` (result `iRes`), metrics. -/
def runDiskToMirror (uRes : Option String)
    (rel opr add : Except String (List CopyImageSchema))
    (bRes iRes : Option String) :
    List Event × Option String :=
  match uRes with
  | some e => ([Event.unarchive], some e)
  | none =>
    let c := collectAll rel opr add
    match c.err with
    | some e =>
        (Event.unarchive :: Event.startRegistry :: c.events ++
          [Event.closeUnarchiver], some e)
    | none =>
      match bRes with
      | some e =>
          (Event.unarchive :: Event.startRegistry :: c.events ++
            [Event.batchWorker, Event.closeUnarchiver], some e)
      | none =>
        match iRes with
        | some e =>
            (Event.unarchive :: Event.startRegistry :: c.events ++
              [Event.batchWorker, Event.idmsGenerator, Event.closeUnarchiver],
              some e)
        | none =>
            (Event.unarchive :: Event.startRegistry :: c.events ++
              [Event.batchWorker, Event.idmsGenerator, Event.logMetrics,
                Event.closeUnarchiver],
              none)

/-- Embedding of `ExecutorSchema.Run` (executor.go lines 447-467): dispatch
on `IsMirrorToDisk`, then on an error call `cleanUp` and return it, while on
success run the deferred `cleanUp`; either way exactly one `cleanup` event
is appended by `Run` itself. -/
def runExecutor (isMirrorToDisk : Bool) (uRes : Option String)
    (rel opr add : Except String (List CopyImageSchema))
    (bRes : Option String) (aRes : Except String String) (iRes : Option String) :
    List Event × Option String :=
  let inner :=
    if isMirrorToDisk then runMirrorToDisk rel opr add bRes aRes
    else runDiskToMirror uRes rel opr add bRes iRes
  (inner.1 ++ [Event.cleanup], inner.2)

/-- A value carried by the registry's interrupt/error channel: Go `nil`
(`noError`), a `NormalStorageInterruptError` built by
`NormalStorageInterruptErrorf` (`normalInterrupt`), or any other error
(`failure`). -/
inductive RegistrySignal where
  | noError
  | normalInterrupt (msg : String)
  | failure (msg : String)
deriving DecidableEq, Repr

/-- Go `err != nil` on a registry signal. -/
def isNonNil : RegistrySignal → Bool
  | RegistrySignal.noError => false
  | RegistrySignal.normalInterrupt _ => true
  | RegistrySignal.failure _ => true

/-- Go `errors.Is(err, &NormalStorageInterruptError)` on a registry
signal: the sentinel type check. -/
def isNormalStorageInterrupt : RegistrySignal → Bool
  | RegistrySignal.normalInterrupt _ => true
  | _ => false

/-- Embedding of the watcher body `panicOnRegistryError` (executor.go lines
302-307): returns whether the received signal makes the process panic,
i.e. `err != nil && !errors.Is(err, &NormalStorageInterruptError)`. -/
def panicOnRegistryError (sig : RegistrySignal) : Bool :=
  isNonNil sig && !(isNormalStorageInterrupt sig)

/-- Everything observable about the check loop and reporting of
`ExecutorSchema.RunPrepare` (executor.go lines 741-792) once collection has
succeeded: the lines written to `cached-images.txt` (one per collected
item's destination, written unconditionally before the outcome is
examined), the destinations the failure path logs as missing (the keys of
the `imagesAvailable` map holding `false`; a set, since Go map iteration
order is unspecified — modelled as first-occurrence order), and the returned
error. -/
structure PrepareResult where
  reportLines : List String
  missingLogged : List String
  err : Option String
deriving DecidableEq, Repr

/-- Embedding of the post-collection part of `ExecutorSchema.RunPrepare`
(executor.go lines 759-791).  `check d = (exists, err)` models
`o.Mirror.Check(ctx, d, &o.Opts)`.  `atLeastOneMissing` is set when a check
errors or returns false; `imagesAvailable[d]` records the returned boolean;
the report buffer always receives every destination; on failure the missing
destinations are enumerated and a single aggregate error is returned. -/
def runPrepare (check : String → Bool × Option String)
    (items : List CopyImageSchema) : PrepareResult :=
  let dests := items.map (fun img => img.destination)
  let atLeastOneMissing :=
    items.any (fun img =>
      (check img.destination).2.isSome || !(check img.destination).1)
  { reportLines := dests
    missingLogged :=
      if atLeastOneMissing then
        (dests.filter (fun d => !(check d).1)).dedup
      else []
    err :=
      if atLeastOneMissing then
        some "all images necessary for mirroring are not available in the cache"
      else none }

/-- Transcription of the spec's (and claim C1's) description of the legal
argument shapes, read with its literal "prefixed" semantics: a non-empty
config path; either the destination starts with `file://` and `--from` is
empty, or the destination starts with `docker://` and `--from` is non-empty
and starts with `file://`. -/
def specLegalShapeC1 (cfg f d : String) : Prop :=
  cfg ≠ "" ∧
  ((listIsPfxOf fileProtocol.data d.data = true ∧ f = "") ∨
   (listIsPfxOf dockerProtocol.data d.data = true ∧ f ≠ "" ∧
     listIsPfxOf fileProtocol.data f.data = true))

instance (cfg f d : String) : Decidable (specLegalShapeC1 cfg f d) := by
  unfold specLegalShapeC1
  infer_instance

/-- The argument shapes `validate` actually accepts, read off the code:
non-empty config path, and the destination contains exactly one of the two
protocol substrings — `file://` with an empty `--from`, or `docker://` with
a non-empty `--from` that itself contains `file://`. -/
def legalShape (cfg f d : String) : Prop :=
  cfg.length ≠ 0 ∧
  ((goContains d fileProtocol = true ∧ goContains d dockerProtocol = false ∧
      f = "") ∨
   (goContains d dockerProtocol = true ∧ goContains d fileProtocol = false ∧
      f ≠ "" ∧ goContains f fileProtocol = true))

instance (cfg f d : String) : Decidable (legalShape cfg f d) := by
  unfold legalShape
  infer_instance

/-- Sample image values used for concrete instances. -/
def mkImg (n : String) : CopyImageSchema :=
  { source := "src-" ++ n, destination := "dst-" ++ n, origin := n }

theorem string_length_bne (s : String) : (s.length != 0) = !(s == "") := by
  cases s with
  | mk data =>
    cases data with
    | nil => rfl
    | cons c cs =>
      simp [String.length]
      intro h
      exact absurd (congrArg String.data h) (by simp)

theorem string_bne_eq (s : String) : (s != "") = !(s == "") := rfl

theorem validate_none_iff (cfg f d : String) :
    validate cfg f d = none ↔ legalShape cfg f d := by
  unfold validate legalShape
  rw [string_length_bne f, string_bne_eq f]
  have hc : (cfg.length == 0) = (cfg == "") := by
    have := string_length_bne cfg
    cases h1 : cfg.length == 0 <;> cases h2 : cfg == "" <;> simp_all
  rw [hc]
  cases h0 : cfg == "" <;>
    cases h1 : goContains d dockerProtocol <;>
      cases h2 : goContains d fileProtocol <;>
        cases h3 : f == "" <;>
          cases h4 : goContains f fileProtocol <;>
            simp_all

/-- C1 counterexample.  The claim reads Validate's legal shapes with
prefixed protocols; the code tests substring containment and, separately,
rejects destinations carrying both protocol substrings.  Left conjunct: a
`--from` that merely contains (but does not start with) `file://` is
accepted, outside the documented shapes.  Right conjunct: a destination
that starts with `file://` (a documented legal shape with empty `--from`)
is rejected because it also contains `docker://` further on. -/
theorem C1_validate_cex :
    (validate "c" "Xfile://y" "docker://d" = none ∧
      ¬ specLegalShapeC1 "c" "Xfile://y" "docker://d") ∧
    (specLegalShapeC1 "c" "" "file://a/docker://b" ∧
      validate "c" "" "file://a/docker://b" ≠ none) := by
  decide

/-- C1 (amended): Validate returns nil exactly on: non-empty config path
and a destination containing exactly one of the two protocol substrings —
`file://` with empty `--from`, or `docker://` with a non-empty `--from`
that itself contains `file://`; every other combination gets one of the
five rule-specific errors.  Validate is modelled (faithfully to its
value receiver and assignment-free body) as a pure function. -/
theorem C1_validate_amended (cfg f d : String) :
    validate cfg f d = none ↔ legalShape cfg f d :=
  validate_none_iff cfg f d

/-- C3: when all three collectors succeed, CollectAll returns exactly the
release list, then the operator list, then the additional list, with no
error: plain concatenation, so no item is dropped, duplicated or altered
and each collector's internal order is kept. -/
theorem C3_collectAll_order (rs os as : List CopyImageSchema) :
    (collectAll (Except.ok rs) (Except.ok os) (Except.ok as)).images
        = rs ++ os ++ as ∧
    (collectAll (Except.ok rs) (Except.ok os) (Except.ok as)).err = none := by
  simp [collectAll, mergeImages]

/-- C2: for every argument list Validate accepts, Complete resolves the
workflow mode purely from the destination's protocol: a `file://`
destination yields MirrorToDisk with the working-directory root taken from
the destination path, otherwise the destination carries `docker://` and
yields DiskToMirror with the root taken from the `--from` path; the
resolved mode is never Prepare and does not depend on `--from`; Prepare is
set only by the dedicated prepare command's CompletePrepare. -/
theorem C2_complete_mode (cfg f d : String) (h : validate cfg f d = none) :
    (goContains d fileProtocol = true →
      completeModeAndRoot f d
        = some (Mode.mirrorToDisk, goTrimPfx d fileProtocol)) ∧
    (goContains d fileProtocol = false →
      goContains d dockerProtocol = true ∧
      completeModeAndRoot f d
        = some (Mode.diskToMirror, goTrimPfx f fileProtocol)) ∧
    (completeModeAndRoot f d).map Prod.fst ≠ some Mode.prepareMode ∧
    (completeModeAndRoot f d).map Prod.fst
      = (completeModeAndRoot "" d).map Prod.fst ∧
    completePrepareMode = Mode.prepareMode := by
  obtain ⟨hcfg, hcase⟩ := (validate_none_iff cfg f d).mp h
  refine ⟨?_, ?_, ?_, ?_, rfl⟩
  · intro hf
    simp [completeModeAndRoot, hf]
  · intro hf
    rcases hcase with ⟨h1, _, _⟩ | ⟨h1, h2, _, _⟩
    · rw [hf] at h1
      cases h1
    · exact ⟨h1, by simp [completeModeAndRoot, hf, h2, h1]⟩
  · rcases hcase with ⟨h1, h2, _⟩ | ⟨h1, h2, _, _⟩ <;>
      simp [completeModeAndRoot, h1, h2]
  · rcases hcase with ⟨h1, h2, _⟩ | ⟨h1, h2, _, _⟩ <;>
      simp [completeModeAndRoot, h1, h2]

/-- C2 witness: Validate accepts config "c", empty `--from`, destination
"file://x", and there Complete resolves MirrorToDisk with root "x". -/
theorem C2_complete_mode_witness :
    validate "c" "" "file://x" = none ∧
    ((goContains "file://x" fileProtocol = true →
        completeModeAndRoot "" "file://x"
          = some (Mode.mirrorToDisk, goTrimPfx "file://x" fileProtocol)) ∧
      (goContains "file://x" fileProtocol = false →
        goContains "file://x" dockerProtocol = true ∧
        completeModeAndRoot "" "file://x"
          = some (Mode.diskToMirror, goTrimPfx "" fileProtocol)) ∧
      (completeModeAndRoot "" "file://x").map Prod.fst
        ≠ some Mode.prepareMode ∧
      (completeModeAndRoot "" "file://x").map Prod.fst
        = (completeModeAndRoot "" "file://x").map Prod.fst ∧
      completePrepareMode = Mode.prepareMode) :=
  ⟨by decide, C2_complete_mode "c" "" "file://x" (by decide)⟩

/-- C4 counterexample: with the release collector returning one image and
the operator collector failing, CollectAll returns the empty list, not the
partial result accumulated before the failure. -/
theorem C4_collect_failure_cex :
    (collectAll (Except.ok [mkImg "r1"])
        (Except.error "operator collector failed")
        (Except.ok [mkImg "a1"])).images = [] ∧
    ([] : List CopyImageSchema) ≠ [mkImg "r1"] := by
  decide

/-- C4 (amended): on any collector failure CollectAll short-circuits — the
later collectors are not invoked (the event trace ends at the failing
collector), `cleanUp` runs, the collector's error is propagated — but the
returned slice is the empty list, discarding the partial accumulation. -/
theorem C4_collect_failure_amended (rs os : List CopyImageSchema) (e : String)
    (oRes aRes : Except String (List CopyImageSchema)) :
    ((collectAll (Except.error e) oRes aRes).events
        = [Event.collectRelease, Event.cleanup] ∧
      (collectAll (Except.error e) oRes aRes).err = some e ∧
      (collectAll (Except.error e) oRes aRes).images = []) ∧
    ((collectAll (Except.ok rs) (Except.error e) aRes).events
        = [Event.collectRelease, Event.collectOp, Event.cleanup] ∧
      (collectAll (Except.ok rs) (Except.error e) aRes).err = some e ∧
      (collectAll (Except.ok rs) (Except.error e) aRes).images = []) ∧
    ((collectAll (Except.ok rs) (Except.ok os) (Except.error e)).events
        = [Event.collectRelease, Event.collectOp, Event.collectAdditional,
            Event.cleanup] ∧
      (collectAll (Except.ok rs) (Except.ok os) (Except.error e)).err = some e ∧
      (collectAll (Except.ok rs) (Except.ok os) (Except.error e)).images = []) :=
  ⟨⟨rfl, rfl, rfl⟩, ⟨rfl, rfl, rfl⟩, ⟨rfl, rfl, rfl⟩⟩

/-- C5: in every MirrorToDisk run whose trace reaches BuildArchive, the
batch transfer completed successfully, the normal-shutdown sentinel send
precedes BuildArchive, the batch worker precedes BuildArchive, and when the
transfer-time metrics are logged at all they are logged after BuildArchive
returned. -/
theorem C5_m2d_ordering (rel opr add : Except String (List CopyImageSchema))
    (bRes : Option String) (aRes : Except String String)
    (h : Event.buildArchive ∈ (runMirrorToDisk rel opr add bRes aRes).1) :
    bRes = none ∧
    (runMirrorToDisk rel opr add bRes aRes).1.indexOf Event.sendNormalInterrupt
      < (runMirrorToDisk rel opr add bRes aRes).1.indexOf Event.buildArchive ∧
    (runMirrorToDisk rel opr add bRes aRes).1.indexOf Event.batchWorker
      < (runMirrorToDisk rel opr add bRes aRes).1.indexOf Event.buildArchive ∧
    (Event.logMetrics ∈ (runMirrorToDisk rel opr add bRes aRes).1 →
      (runMirrorToDisk rel opr add bRes aRes).1.indexOf Event.buildArchive
        < (runMirrorToDisk rel opr add bRes aRes).1.indexOf Event.logMetrics) := by
  cases rel <;> cases opr <;> cases add <;> cases bRes <;> cases aRes <;>
    simp only [runMirrorToDisk, collectAll] at h ⊢ <;>
    first
    | exact absurd h (by decide)
    | decide

/-- C5 witness: the fully successful MirrorToDisk trace reaches
BuildArchive and satisfies the three ordering facts. -/
theorem C5_m2d_ordering_witness :
    Event.buildArchive ∈
      (runMirrorToDisk (Except.ok []) (Except.ok []) (Except.ok [])
        none (Except.ok "archive.tar")).1 ∧
    ((none : Option String) = none ∧
      (runMirrorToDisk (Except.ok []) (Except.ok []) (Except.ok [])
          none (Except.ok "archive.tar")).1.indexOf Event.sendNormalInterrupt
        < (runMirrorToDisk (Except.ok []) (Except.ok []) (Except.ok [])
            none (Except.ok "archive.tar")).1.indexOf Event.buildArchive ∧
      (runMirrorToDisk (Except.ok []) (Except.ok []) (Except.ok [])
          none (Except.ok "archive.tar")).1.indexOf Event.batchWorker
        < (runMirrorToDisk (Except.ok []) (Except.ok []) (Except.ok [])
            none (Except.ok "archive.tar")).1.indexOf Event.buildArchive ∧
      (Event.logMetrics ∈
          (runMirrorToDisk (Except.ok []) (Except.ok []) (Except.ok [])
            none (Except.ok "archive.tar")).1 →
        (runMirrorToDisk (Except.ok []) (Except.ok []) (Except.ok [])
            none (Except.ok "archive.tar")).1.indexOf Event.buildArchive
          < (runMirrorToDisk (Except.ok []) (Except.ok []) (Except.ok [])
              none (Except.ok "archive.tar")).1.indexOf Event.logMetrics)) :=
  ⟨by decide,
    C5_m2d_ordering (Except.ok []) (Except.ok []) (Except.ok [])
      none (Except.ok "archive.tar") (by decide)⟩

/-- C6 counterexample: the claim says the escalation also covers the
no-error (nil) signal, but the watcher's `err != nil` guard means a nil
value received on the channel does not panic. -/
theorem C6_registry_signal_cex :
    panicOnRegistryError RegistrySignal.noError = false := by decide

/-- C6 (amended): the watcher escalates to a panic exactly on the non-nil
signals that are not the deliberate normal-shutdown sentinel; the nil
signal is ignored. -/
theorem C6_registry_signal_amended (sig : RegistrySignal) :
    (panicOnRegistryError sig = true ↔
      isNonNil sig = true ∧ isNormalStorageInterrupt sig = false) ∧
    (∀ m, panicOnRegistryError (RegistrySignal.failure m) = true) ∧
    (∀ m, panicOnRegistryError (RegistrySignal.normalInterrupt m) = false) ∧
    panicOnRegistryError RegistrySignal.noError = false := by
  refine ⟨?_, fun m => rfl, fun m => rfl, rfl⟩
  cases sig <;> simp [panicOnRegistryError, isNonNil, isNormalStorageInterrupt]

/-- C7 counterexample: when the release collector fails inside a
MirrorToDisk run, `cleanUp` runs twice — once inside CollectAll and once
again in Run's error path — not exactly once. -/
theorem C7_cleanup_cex :
    ¬ ((runExecutor true none (Except.error "release collector failed")
        (Except.ok []) (Except.ok []) none (Except.ok "archive.tar")
        none).1.count Event.cleanup = 1) := by decide

/-- C7 (amended): Run itself always triggers `cleanUp` exactly once —
explicitly on an error and via defer on success — but CollectAll also calls
`cleanUp` when a collector fails, so an invocation performs cleanup twice
exactly when the run reaches collection and a collector fails, and once in
every other case; it is never zero. -/
theorem C7_cleanup_amended (m2d : Bool) (uRes : Option String)
    (rel opr add : Except String (List CopyImageSchema))
    (bRes : Option String) (aRes : Except String String)
    (iRes : Option String) :
    (runExecutor m2d uRes rel opr add bRes aRes iRes).1.count Event.cleanup
      = (if (m2d || uRes.isNone) && (collectAll rel opr add).err.isSome
          then 2 else 1) := by
  cases m2d <;> cases uRes <;> cases rel <;> cases opr <;> cases add <;>
    cases bRes <;> cases aRes <;> cases iRes <;>
    simp [runExecutor, runMirrorToDisk, runDiskToMirror, collectAll,
      List.count_cons, List.count_append, List.count_nil]

/-- C9 counterexample: for a run where all three collectors succeed, only
two `ImageType` assignments ever happen ("release" then "operator"); the
additional-images batch is merged with the stale "operator" tag still in
effect, not under a tag identifying the additional-images phase. -/
theorem C9_tag_cex :
    (collectAll (Except.ok [mkImg "r"]) (Except.ok [mkImg "o"])
        (Except.ok [mkImg "a"])).imageTypeSets = ["release", "operator"] ∧
    (collectAll (Except.ok [mkImg "r"]) (Except.ok [mkImg "o"])
        (Except.ok [mkImg "a"])).tagAtMerge
      = ["release", "operator", "operator"] := by decide

/-- C9 (amended): CollectAll assigns the contentTypeTag "release" before
merging the release batch and "operator" before merging the operator batch,
but performs no assignment for the additional-images batch, which is merged
— and left for all downstream processing — under the leftover "operator"
tag. -/
theorem C9_tag_amended (rs os as : List CopyImageSchema) :
    (collectAll (Except.ok rs) (Except.ok os) (Except.ok as)).imageTypeSets
        = ["release", "operator"] ∧
    (collectAll (Except.ok rs) (Except.ok os) (Except.ok as)).tagAtMerge
        = ["release", "operator", "operator"] ∧
    (collectAll (Except.ok rs) (Except.ok os) (Except.ok as)).imageTypeFinal
        = "operator" :=
  ⟨rfl, rfl, rfl⟩

/-- C10 counterexample: a destination containing both protocol substrings
(with `file://` not at position 0) is never accepted by Validate — with an
empty `--from` the docker rule rejects it, with a `file://` `--from` the
file rule rejects it — refuting the claim that every destination containing
one of the substrings is accepted. -/
theorem C10_containment_cex :
    goContains "docker://r/file://s" fileProtocol = true ∧
    goContains "docker://r/file://s" dockerProtocol = true ∧
    validate "cfg" "" "docker://r/file://s"
      = some ValidationError.dockerNeedsFrom ∧
    validate "cfg" "file://f" "docker://r/file://s"
      = some ValidationError.fileForbidsFrom := by decide

/-- C10 (amended): protocol recognition is by substring containment, not by
position: a destination containing exactly one of the substrings anywhere —
with the matching `--from` shape — is accepted by Validate and assigned the
corresponding mode by Complete; when a destination contains both
substrings, Complete's `file://` branch wins and resolves MirrorToDisk, but
Validate rejects such a destination for every `--from` value. -/
theorem C10_containment_amended (cfg f d : String) (hcfg : cfg.length ≠ 0) :
    (goContains d fileProtocol = true → goContains d dockerProtocol = false →
      f = "" →
      validate cfg f d = none ∧
      completeModeAndRoot f d
        = some (Mode.mirrorToDisk, goTrimPfx d fileProtocol)) ∧
    (goContains d dockerProtocol = true → goContains d fileProtocol = false →
      f ≠ "" → goContains f fileProtocol = true →
      validate cfg f d = none ∧
      completeModeAndRoot f d
        = some (Mode.diskToMirror, goTrimPfx f fileProtocol)) ∧
    (goContains d fileProtocol = true → goContains d dockerProtocol = true →
      completeModeAndRoot f d
          = some (Mode.mirrorToDisk, goTrimPfx d fileProtocol) ∧
      validate cfg f d ≠ none) := by
  refine ⟨?_, ?_, ?_⟩
  · intro h1 h2 h3
    refine ⟨(validate_none_iff cfg f d).mpr ⟨hcfg, Or.inl ⟨h1, h2, h3⟩⟩, ?_⟩
    simp [completeModeAndRoot, h1]
  · intro h1 h2 h3 h4
    refine ⟨(validate_none_iff cfg f d).mpr ⟨hcfg, Or.inr ⟨h1, h2, h3, h4⟩⟩, ?_⟩
    simp [completeModeAndRoot, h1, h2]
  · intro h1 h2
    refine ⟨by simp [completeModeAndRoot, h1], ?_⟩
    intro hnone
    rcases ((validate_none_iff cfg f d).mp hnone).2 with ⟨_, hx, _⟩ | ⟨_, hx, _, _⟩
    · rw [h2] at hx
      cases hx
    · rw [h1] at hx
      cases hx

/-- C10 witness: with config "c" and empty `--from`, the destination
"Xfile://a" — containing `file://` away from position 0 and no `docker://`
— is accepted and resolved to MirrorToDisk with root "Xfile://a". -/
theorem C10_containment_witness :
    ("c" : String).length ≠ 0 ∧
    ((goContains "Xfile://a" fileProtocol = true →
        goContains "Xfile://a" dockerProtocol = false →
        ("" : String) = "" →
        validate "c" "" "Xfile://a" = none ∧
        completeModeAndRoot "" "Xfile://a"
          = some (Mode.mirrorToDisk, goTrimPfx "Xfile://a" fileProtocol)) ∧
      (goContains "Xfile://a" dockerProtocol = true →
        goContains "Xfile://a" fileProtocol = false →
        ("" : String) ≠ "" → goContains "" fileProtocol = true →
        validate "c" "" "Xfile://a" = none ∧
        completeModeAndRoot "" "Xfile://a"
          = some (Mode.diskToMirror, goTrimPfx "" fileProtocol)) ∧
      (goContains "Xfile://a" fileProtocol = true →
        goContains "Xfile://a" dockerProtocol = true →
        completeModeAndRoot "" "Xfile://a"
            = some (Mode.mirrorToDisk, goTrimPfx "Xfile://a" fileProtocol) ∧
        validate "c" "" "Xfile://a" ≠ none)) :=
  ⟨by decide, C10_containment_amended "c" "" "Xfile://a" (by decide)⟩

/-- C8: for every Prepare run whose collection succeeds, the report gets
one line per checked destination regardless of outcome; the run returns a
non-nil error exactly when some existence check errored or returned false;
the failure output enumerates, without repetition, exactly the destinations
recorded as absent from the cache; and the run succeeds exactly when every
collected destination's check cleanly reported it present. -/
theorem C8_prepare_report (check : String → Bool × Option String)
    (items : List CopyImageSchema) :
    (runPrepare check items).reportLines
        = items.map (fun i => i.destination) ∧
    ((runPrepare check items).err.isSome = true ↔
      ∃ i ∈ items, (check i.destination).2.isSome = true ∨
        (check i.destination).1 = false) ∧
    (∀ dd, dd ∈ (runPrepare check items).missingLogged ↔
      ((∃ i ∈ items, i.destination = dd) ∧ (check dd).1 = false)) ∧
    (runPrepare check items).missingLogged.Nodup ∧
    ((runPrepare check items).err = none ↔
      ∀ i ∈ items, (check i.destination).1 = true ∧
        (check i.destination).2 = none) := by
  have hany : (items.any (fun img =>
      (check img.destination).2.isSome || !(check img.destination).1) = true) ↔
      ∃ i ∈ items, (check i.destination).2.isSome = true ∨
        (check i.destination).1 = false := by
    rw [List.any_eq_true]
    constructor
    · rintro ⟨i, hi, hp⟩
      rcases Bool.or_eq_true_iff.mp hp with h | h
      · exact ⟨i, hi, Or.inl h⟩
      · exact ⟨i, hi, Or.inr (Bool.not_eq_true' .. |>.mp h)⟩
    · rintro ⟨i, hi, hp⟩
      refine ⟨i, hi, Bool.or_eq_true_iff.mpr ?_⟩
      rcases hp with h | h
      · exact Or.inl h
      · exact Or.inr (Bool.not_eq_true' .. |>.mpr h)
  refine ⟨rfl, ?_, ?_, ?_, ?_⟩
  · unfold runPrepare
    cases ha : items.any (fun img =>
        (check img.destination).2.isSome || !(check img.destination).1)
    · dsimp only
      rw [if_neg Bool.false_ne_true]
      simp only [Option.isSome_none, Bool.false_eq_true, false_iff]
      intro hex
      rw [Bool.eq_false_iff] at ha
      exact ha (hany.mpr hex)
    · dsimp only
      rw [if_pos rfl]
      simp only [Option.isSome_some, true_iff]
      exact hany.mp ha
  · intro dd
    unfold runPrepare
    cases ha : items.any (fun img =>
        (check img.destination).2.isSome || !(check img.destination).1)
    · dsimp only
      rw [if_neg Bool.false_ne_true]
      simp only [List.not_mem_nil, false_iff, not_and]
      rintro ⟨i, hi, hdi⟩ hfalse
      rw [List.any_eq_false] at ha
      have hq := ha i hi
      simp [hdi, hfalse] at hq
    · dsimp only
      rw [if_pos rfl]
      simp only [List.mem_dedup, List.mem_filter, List.mem_map]
      constructor
      · rintro ⟨⟨i, hi, hdi⟩, hflt⟩
        refine ⟨⟨i, hi, hdi⟩, ?_⟩
        simpa using hflt
      · rintro ⟨⟨i, hi, hdi⟩, hfalse⟩
        exact ⟨⟨i, hi, hdi⟩, by simp [hfalse]⟩
  · unfold runPrepare
    cases ha : items.any (fun img =>
        (check img.destination).2.isSome || !(check img.destination).1)
    · dsimp only
      rw [if_neg Bool.false_ne_true]
      exact List.nodup_nil
    · dsimp only
      rw [if_pos rfl]
      exact List.nodup_dedup _
  · unfold runPrepare
    cases ha : items.any (fun img =>
        (check img.destination).2.isSome || !(check img.destination).1)
    · dsimp only
      rw [if_neg Bool.false_ne_true]
      rw [List.any_eq_false] at ha
      constructor
      · intro _ i hi
        have hq := ha i hi
        constructor
        · cases hv : (check i.destination).1
          · exact absurd (by simp [hv]) hq
          · rfl
        · cases hv : (check i.destination).2 with
          | none => rfl
          | some v => exact absurd (by simp [hv]) hq
      · intro _
        rfl
    · dsimp only
      rw [if_pos rfl]
      constructor
      · intro h
        exact Option.noConfusion h
      · intro hall
        exfalso
        rcases hany.mp ha with ⟨i, hi, hbad⟩
        rcases hbad with h | h
        · rw [(hall i hi).2] at h
          simp at h
        · rw [(hall i hi).1] at h
          exact Bool.noConfusion h
